import Mathlib

/-!
Verification of the sync orchestration subsystem of the samay-core-engine
repository: per-bucket sync-state tracking (`sync/state_manager.py`) and the
orchestration pass over buckets (`sync/sync_manager.py`).

The Python classes are embedded shallowly:
  * `SyncState` mirrors the `SyncState` dataclass field by field;
  * the in-memory dict `SyncStateManager._sync_states` becomes an association
    list `Store` with dict-style lookup (`storeGet`) and insert-or-replace
    (`storeSet`);
  * mutating methods become pure state transformers taking the current store
    and the wall-clock timestamp (`datetime.now(...)` results) as arguments;
  * `_save_sync_states` is the identity on the in-memory state; its file-system
    behaviour is modelled separately by `saveSteps` for the crash-safety claim.
-/

/-- Embeds the `SyncState` dataclass of `sync/state_manager.py`. -/
structure SyncState where
  bucket_id : String
  last_sync_timestamp : Option String
  last_sync_event_id : Option Int
  total_events_synced : Int
  last_sync_status : String
  last_sync_error : Option String
  created_at : String
  updated_at : String
  deriving Repr, DecidableEq

/-- Embeds an ActivityWatch event dictionary as consumed by the sync core.
The `id` key is optional because `get_events_since_last_sync` reads it with
`event.get('id', 0)`; `timestamp` and `data` are always present per the data
model. -/
structure Event where
  id : Option Int
  timestamp : String
  data : String
  deriving Repr, DecidableEq, Inhabited

/-- Embeds `event.get('id', 0)`: the event id with default 0 when absent. -/
def eventId (e : Event) : Int :=
  e.id.getD 0

/-- Embeds the dict `SyncStateManager._sync_states` as an association list. -/
def Store : Type :=
  List (String × SyncState)

instance : DecidableEq Store := by
  unfold Store
  infer_instance

/-- Dict lookup `self._sync_states.get(bucket_id)` (used by `get_sync_state`). -/
def storeGet : Store → String → Option SyncState
  | [], _ => none
  | (k, v) :: rest, b => if k = b then some v else storeGet rest b

/-- Dict assignment `self._sync_states[bucket_id] = sync_state`: replace the
existing entry in place, else append. -/
def storeSet : Store → String → SyncState → Store
  | [], b, v => [(b, v)]
  | (k, w) :: rest, b, v =>
    if k = b then (b, v) :: rest else (k, w) :: storeSet rest b v

/-- Embeds `SyncStateManager.create_sync_state`'s fresh state (the
`datetime.now(timezone.utc).isoformat()` value is the `now` argument). -/
def create_sync_state (bucket_id : String) (now : String) : SyncState :=
  { bucket_id := bucket_id
    last_sync_timestamp := none
    last_sync_event_id := none
    total_events_synced := 0
    last_sync_status := "never"
    last_sync_error := none
    created_at := now
    updated_at := now }

/-- Embeds `SyncStateManager.get_or_create_sync_state`: returns the updated
store together with the bucket's state (creating and persisting a fresh
`never`-status state when absent). -/
def get_or_create_sync_state (s : Store) (bucket_id : String) (now : String) :
    Store × SyncState :=
  match storeGet s bucket_id with
  | some st => (s, st)
  | none => (storeSet s bucket_id (create_sync_state bucket_id now),
             create_sync_state bucket_id now)

/-- Embeds `SyncStateManager.update_sync_success`. -/
def update_sync_success (s : Store) (bucket_id : String)
    (last_event_timestamp : String) (last_event_id : Int)
    (events_synced : Int) (now : String) : Store :=
  let p := get_or_create_sync_state s bucket_id now
  let st := p.2
  storeSet p.1 bucket_id
    { st with
      last_sync_timestamp := some last_event_timestamp
      last_sync_event_id := some last_event_id
      total_events_synced := st.total_events_synced + events_synced
      last_sync_status := "success"
      last_sync_error := none
      updated_at := now }

/-- Embeds `SyncStateManager.update_sync_failure` (the `events_synced`
argument defaults to 0 at the call sites that matter here). -/
def update_sync_failure (s : Store) (bucket_id : String)
    (error_message : String) (events_synced : Int) (now : String) : Store :=
  let p := get_or_create_sync_state s bucket_id now
  let st := p.2
  let st' :=
    if 0 < events_synced then
      { st with
        total_events_synced := st.total_events_synced + events_synced
        last_sync_status := "partial"
        last_sync_error := some error_message
        updated_at := now }
    else
      { st with
        last_sync_status := "failed"
        last_sync_error := some error_message
        updated_at := now }
  storeSet p.1 bucket_id st'

/-- Embeds `SyncStateManager.get_events_since_last_sync`: returns the updated
store (the method lazily creates a state via `get_or_create_sync_state`) and
the list of unsynced events. -/
def get_events_since_last_sync (s : Store) (bucket_id : String)
    (all_events : List Event) (now : String) : Store × List Event :=
  let p := get_or_create_sync_state s bucket_id now
  match p.2.last_sync_event_id with
  | none => (p.1, all_events)
  | some lastId => (p.1, all_events.filter (fun e => decide (lastId < eventId e)))

/-! Basic store lemmas shared by several claims. -/

theorem storeGet_storeSet_self (s : Store) (b : String) (v : SyncState) :
    storeGet (storeSet s b v) b = some v := by
  induction s with
  | nil => simp [storeSet, storeGet]
  | cons hd tl ih =>
    obtain ⟨k, w⟩ := hd
    by_cases hk : k = b
    · simp [storeSet, hk, storeGet]
    · simp [storeSet, hk, storeGet, ih]

theorem storeGet_storeSet_other (s : Store) (b k : String) (v : SyncState)
    (h : k ≠ b) : storeGet (storeSet s b v) k = storeGet s k := by
  induction s with
  | nil => simp [storeSet, storeGet, Ne.symm h]
  | cons hd tl ih =>
    obtain ⟨k', w⟩ := hd
    by_cases hk : k' = b
    · subst hk
      simp [storeSet, storeGet, Ne.symm h]
    · simp [storeSet, storeGet, hk, ih]

theorem storeGet_storeSet_cases (s : Store) (b k : String) (v : SyncState)
    (st : SyncState) (h : storeGet (storeSet s b v) k = some st) :
    (k = b ∧ st = v) ∨ storeGet s k = some st := by
  by_cases hk : k = b
  · subst hk
    rw [storeGet_storeSet_self] at h
    exact Or.inl ⟨rfl, (Option.some_injective _ h).symm⟩
  · rw [storeGet_storeSet_other s b k v hk] at h
    exact Or.inr h

theorem get_or_create_of_some (s : Store) (b now : String) (st : SyncState)
    (h : storeGet s b = some st) :
    get_or_create_sync_state s b now = (s, st) := by
  unfold get_or_create_sync_state
  rw [h]

theorem get_or_create_of_none (s : Store) (b now : String)
    (h : storeGet s b = none) :
    get_or_create_sync_state s b now =
      (storeSet s b (create_sync_state b now), create_sync_state b now) := by
  unfold get_or_create_sync_state
  rw [h]

theorem get_or_create_get (s : Store) (b now : String) :
    storeGet (get_or_create_sync_state s b now).1 b =
      some (get_or_create_sync_state s b now).2 := by
  unfold get_or_create_sync_state
  cases h : storeGet s b with
  | none => simp [storeGet_storeSet_self]
  | some st => simp [h]

theorem get_or_create_frame (s : Store) (b k now : String) (h : k ≠ b) :
    storeGet (get_or_create_sync_state s b now).1 k = storeGet s k := by
  unfold get_or_create_sync_state
  cases hg : storeGet s b with
  | none => simp [storeGet_storeSet_other _ _ _ _ h]
  | some st => simp

/-- Claim C1 helper: the unsynced list when the stored cursor id is `some n`. -/
theorem selector_of_some (s : Store) (b now : String) (l : List Event)
    (st : SyncState) (n : Int) (hget : storeGet s b = some st)
    (hid : st.last_sync_event_id = some n) :
    (get_events_since_last_sync s b l now).2 =
      l.filter (fun e => decide (n < eventId e)) := by
  unfold get_events_since_last_sync
  rw [get_or_create_of_some s b now st hget]
  simp [hid]

/-- Claim C1 helper: the unsynced list when no cursor id is recorded. -/
theorem selector_of_none (s : Store) (b now : String) (l : List Event)
    (h : (storeGet s b).bind SyncState.last_sync_event_id = none) :
    (get_events_since_last_sync s b l now).2 = l := by
  unfold get_events_since_last_sync
  cases hg : storeGet s b with
  | none =>
    rw [get_or_create_of_none s b now hg]
    simp [create_sync_state]
  | some st =>
    rw [hg] at h
    simp only [Option.some_bind] at h
    rw [get_or_create_of_some s b now st hg]
    simp [h]

/-- C1. The Unsynced-Event Selector (`get_events_since_last_sync`) returns all
input events unchanged when the bucket's `last_synced_event_id` is absent
(either no cursor, or a cursor with unset id), and otherwise returns exactly
the input events whose id is strictly greater than `last_synced_event_id`,
preserving input order (the result is a sublist of the input, and membership
is characterised by the id comparison). -/
theorem samay_C1_selector_filter (s : Store) (b now : String) (l : List Event) :
    ((storeGet s b).bind SyncState.last_sync_event_id = none →
      (get_events_since_last_sync s b l now).2 = l)
    ∧ (∀ n : Int, (storeGet s b).bind SyncState.last_sync_event_id = some n →
        (∀ e ∈ l, e.id.isSome) →
        ((get_events_since_last_sync s b l now).2 =
            l.filter (fun e => decide (n < eventId e))
          ∧ ((get_events_since_last_sync s b l now).2).Sublist l
          ∧ ∀ e : Event, e ∈ (get_events_since_last_sync s b l now).2 ↔
              (e ∈ l ∧ n < eventId e))) := by
  constructor
  · intro h
    exact selector_of_none s b now l h
  · intro n hsome _
    cases hg : storeGet s b with
    | none => rw [hg] at hsome; simp at hsome
    | some st =>
      rw [hg] at hsome
      simp only [Option.some_bind] at hsome
      have hfilter := selector_of_some s b now l st n hg hsome
      refine ⟨hfilter, ?_, ?_⟩
      · rw [hfilter]
        exact List.filter_sublist l
      · intro e
        rw [hfilter]
        simp [List.mem_filter]

/-- Witness for C1 at a concrete store and event list. -/
theorem samay_C1_witness :
    (storeGet [("b", ⟨"b", none, some 2, 2, "success", none, "t0", "t1"⟩)]
        "b").bind SyncState.last_sync_event_id = some 2
    ∧ (get_events_since_last_sync
        [("b", ⟨"b", none, some 2, 2, "success", none, "t0", "t1"⟩)] "b"
        [⟨some 1, "e1", "a"⟩, ⟨some 3, "e3", "c"⟩] "t2").2 =
      [⟨some 3, "e3", "c"⟩] := by
  have h := samay_C1_selector_filter
    [("b", ⟨"b", none, some 2, 2, "success", none, "t0", "t1"⟩)] "b" "t2"
    [⟨some 1, "e1", "a"⟩, ⟨some 3, "e3", "c"⟩]
  refine ⟨by decide, ?_⟩
  have h2 := (h.2 2 (by decide) (by decide)).1
  rw [h2]
  decide

/-! Claim C2: forward progress after a successful sync. -/

theorem update_success_get (s : Store) (b ts now : String) (lid n : Int) :
    storeGet (update_sync_success s b ts lid n now) b =
      some { (get_or_create_sync_state s b now).2 with
        last_sync_timestamp := some ts
        last_sync_event_id := some lid
        total_events_synced :=
          (get_or_create_sync_state s b now).2.total_events_synced + n
        last_sync_status := "success"
        last_sync_error := none
        updated_at := now } := by
  simp only [update_sync_success]
  rw [storeGet_storeSet_self]

theorem pairwise_le_getLast (l : List Event) (hne : l ≠ [])
    (hs : l.Pairwise fun a b => eventId a ≤ eventId b) :
    ∀ e ∈ l, eventId e ≤ eventId (l.getLast hne) := by
  induction l with
  | nil => exact absurd rfl hne
  | cons x t ih =>
    rcases List.pairwise_cons.mp hs with ⟨hx, ht⟩
    intro e he
    cases t with
    | nil =>
      have hex : e = x := by simpa using he
      subst hex
      simp [List.getLast]
    | cons y t2 =>
      rw [List.getLast_cons (by simp : y :: t2 ≠ [])]
      rcases List.mem_cons.mp he with rfl | h2
      · exact hx _ (List.getLast_mem _)
      · exact ih (by simp) ht e h2

/-- C2. After `update_sync_success` records the id of the last transmitted
event of a non-empty, ascending-by-id event list, the bucket's cursor id
equals that id and re-running `get_events_since_last_sync` on the same list
yields an empty unsynced set. -/
theorem samay_C2_forward_progress (s : Store) (b ts now now2 : String)
    (n : Int) (l : List Event) (hne : l ≠ [])
    (hs : l.Pairwise fun a b => eventId a ≤ eventId b) :
    (storeGet (update_sync_success s b ts (eventId (l.getLast hne)) n now)
        b).bind SyncState.last_sync_event_id =
      some (eventId (l.getLast hne))
    ∧ (get_events_since_last_sync
        (update_sync_success s b ts (eventId (l.getLast hne)) n now)
        b l now2).2 = [] := by
  have hget := update_success_get s b ts now (eventId (l.getLast hne)) n
  constructor
  · rw [hget]
    rfl
  · rw [selector_of_some _ b now2 l _ (eventId (l.getLast hne)) hget rfl]
    rw [List.filter_eq_nil_iff]
    intro a ha
    have := pairwise_le_getLast l hne hs a ha
    simp only [decide_eq_true_eq]
    omega

/-- Witness for C2 at a concrete ascending event list. -/
theorem samay_C2_witness :
    (storeGet (update_sync_success [] "b" "e3" 3 2 "t1") "b").bind
        SyncState.last_sync_event_id = some 3
    ∧ (get_events_since_last_sync (update_sync_success [] "b" "e3" 3 2 "t1")
        "b" [⟨some 1, "e1", "a"⟩, ⟨some 3, "e3", "c"⟩] "t2").2 = [] := by
  have h := samay_C2_forward_progress [] "b" "e3" "t1" "t2" 2
    [⟨some 1, "e1", "a"⟩, ⟨some 3, "e3", "c"⟩] (by decide) (by decide)
  exact h

/-! Claim C4: a zero-credit failure does not move the cursor. -/

theorem update_failure_zero_get (s : Store) (b msg now : String)
    (st : SyncState) (h : storeGet s b = some st) :
    storeGet (update_sync_failure s b msg 0 now) b =
      some { st with last_sync_status := "failed",
                     last_sync_error := some msg, updated_at := now } := by
  simp only [update_sync_failure]
  rw [get_or_create_of_some s b now st h]
  simp [storeGet_storeSet_self]

/-- C4. Recording a failure with zero events synced leaves the bucket's
`last_sync_event_id` and `total_events_synced` exactly as before, and the
selector returns the same unsynced events afterwards as before the attempt. -/
theorem samay_C4_failure_frame (s : Store) (b msg now now2 : String)
    (l : List Event) (st : SyncState) (h : storeGet s b = some st) :
    ∃ st', storeGet (update_sync_failure s b msg 0 now) b = some st'
      ∧ st'.last_sync_event_id = st.last_sync_event_id
      ∧ st'.total_events_synced = st.total_events_synced
      ∧ (get_events_since_last_sync (update_sync_failure s b msg 0 now)
          b l now2).2 = (get_events_since_last_sync s b l now2).2 := by
  refine ⟨_, update_failure_zero_get s b msg now st h, rfl, rfl, ?_⟩
  cases hid : st.last_sync_event_id with
  | none =>
    have h1 : (storeGet (update_sync_failure s b msg 0 now) b).bind
        SyncState.last_sync_event_id = none := by
      rw [update_failure_zero_get s b msg now st h]
      simp [hid]
    have h2 : (storeGet s b).bind SyncState.last_sync_event_id = none := by
      rw [h]
      simp [hid]
    rw [selector_of_none _ b now2 l h1, selector_of_none s b now2 l h2]
  | some m =>
    rw [selector_of_some _ b now2 l _ m
        (update_failure_zero_get s b msg now st h) (by simp [hid]),
      selector_of_some s b now2 l st m h hid]

/-- Witness for C4 at a concrete cursor. -/
theorem samay_C4_witness :
    ∃ st', storeGet (update_sync_failure
        [("b", ⟨"b", none, some 2, 2, "success", none, "t0", "t1"⟩)]
        "b" "boom" 0 "t2") "b" = some st'
      ∧ st'.last_sync_event_id = some 2
      ∧ st'.total_events_synced = 2
      ∧ (get_events_since_last_sync (update_sync_failure
            [("b", ⟨"b", none, some 2, 2, "success", none, "t0", "t1"⟩)]
            "b" "boom" 0 "t2") "b" [⟨some 3, "e3", "c"⟩] "t3").2 =
        (get_events_since_last_sync
            [("b", ⟨"b", none, some 2, 2, "success", none, "t0", "t1"⟩)]
            "b" [⟨some 3, "e3", "c"⟩] "t3").2 := by
  exact samay_C4_failure_frame
    [("b", ⟨"b", none, some 2, 2, "success", none, "t0", "t1"⟩)]
    "b" "boom" "t2" "t3" [⟨some 3, "e3", "c"⟩]
    ⟨"b", none, some 2, 2, "success", none, "t0", "t1"⟩ (by decide)

/-! Claims C3 and C5: sequences of cursor-store operations. -/

/-- One cursor-store operation of `SyncStateManager`, with the wall-clock
timestamps taken as data. -/
inductive CursorOp where
  | create (now : String)
  | success (ts : String) (lastEventId : Int) (eventsSynced : Int)
      (now : String)
  | failure (msg : String) (eventsSynced : Int) (now : String)
  deriving Repr, DecidableEq

/-- Applies one operation for bucket `b` (embedding `create_sync_state`,
`update_sync_success` and `update_sync_failure`; `create_sync_state`
unconditionally stores a fresh state, as the Python method does). -/
def applyOp (s : Store) (b : String) : CursorOp → Store
  | .create now => storeSet s b (create_sync_state b now)
  | .success ts lid n now => update_sync_success s b ts lid n now
  | .failure msg n now => update_sync_failure s b msg n now

/-- Applies a sequence of operations to one bucket. -/
def applyOps (s : Store) (b : String) : List CursorOp → Store
  | [] => s
  | op :: ops => applyOps (applyOp s b op) b ops

/-- Applies a sequence of operations, each addressed to its own bucket. -/
def applyMOps (s : Store) : List (String × CursorOp) → Store
  | [] => s
  | (b, op) :: ops => applyMOps (applyOp s b op) ops

/-- Running total recorded for a bucket (0 when no cursor exists). -/
def cursorTotal (s : Store) (b : String) : Int :=
  ((storeGet s b).map SyncState.total_events_synced).getD 0

/-- Restriction to the record operations of C3 (`recordSuccess` with a
nonnegative count, `recordFailure`); `create` is not among C3's operations. -/
def CursorOp.recNonneg : CursorOp → Prop
  | .create _ => False
  | .success _ _ n _ => 0 ≤ n
  | .failure _ _ _ => True

theorem update_failure_get (s : Store) (b msg now : String) (n : Int) :
    storeGet (update_sync_failure s b msg n now) b =
      some (if 0 < n then
        { (get_or_create_sync_state s b now).2 with
          total_events_synced :=
            (get_or_create_sync_state s b now).2.total_events_synced + n
          last_sync_status := "partial"
          last_sync_error := some msg
          updated_at := now }
      else
        { (get_or_create_sync_state s b now).2 with
          last_sync_status := "failed"
          last_sync_error := some msg
          updated_at := now }) := by
  simp only [update_sync_failure]
  by_cases hn : 0 < n
  · simp [hn, storeGet_storeSet_self]
  · simp [hn, storeGet_storeSet_self]

theorem cursorTotal_le_applyOp (s : Store) (b : String) (op : CursorOp)
    (h : op.recNonneg) : cursorTotal s b ≤ cursorTotal (applyOp s b op) b := by
  cases op with
  | create now => exact h.elim
  | success ts lid n now =>
    have hn : (0 : Int) ≤ n := h
    simp only [applyOp]
    unfold cursorTotal
    rw [update_success_get s b ts now lid n]
    cases hg : storeGet s b with
    | some st =>
      rw [get_or_create_of_some s b now st hg] <;>
        simp only [Option.map_some', Option.getD_some] <;> omega
    | none =>
      rw [get_or_create_of_none s b now hg] <;>
        simp only [Option.map_some', Option.getD_some, Option.map_none',
          Option.getD_none, create_sync_state] <;> omega
  | failure msg n now =>
    simp only [applyOp]
    unfold cursorTotal
    rw [update_failure_get s b msg now n]
    by_cases hn : 0 < n
    · rw [if_pos hn]
      cases hg : storeGet s b with
      | some st =>
        rw [get_or_create_of_some s b now st hg] <;>
          simp only [Option.map_some', Option.getD_some] <;> omega
      | none =>
        rw [get_or_create_of_none s b now hg] <;>
          simp only [Option.map_some', Option.getD_some, Option.map_none',
            Option.getD_none, create_sync_state] <;> omega
    · rw [if_neg hn]
      cases hg : storeGet s b with
      | some st =>
        rw [get_or_create_of_some s b now st hg] <;>
          simp only [Option.map_some', Option.getD_some] <;> omega
      | none =>
        rw [get_or_create_of_none s b now hg] <;>
          simp only [Option.map_some', Option.getD_some, Option.map_none',
            Option.getD_none, create_sync_state] <;> omega

theorem cursorTotal_le_applyOps (s : Store) (b : String)
    (ops : List CursorOp) (h : ∀ op ∈ ops, op.recNonneg) :
    cursorTotal s b ≤ cursorTotal (applyOps s b ops) b := by
  induction ops generalizing s with
  | nil => exact le_refl _
  | cons op ops ih =>
    calc cursorTotal s b
        ≤ cursorTotal (applyOp s b op) b :=
          cursorTotal_le_applyOp s b op (h op (by simp))
      _ ≤ cursorTotal (applyOps s b (op :: ops)) b :=
          ih _ (fun o ho => h o (by simp [ho]))

/-- C3 counterexample: `update_sync_success` with a smaller event id is
silently accepted — the cursor moves from 10 down to 5, so
`last_synced_event_id` does decrease and no assertion fires. -/
theorem samay_C3_counterexample :
    (storeGet (applyOp [] "b" (CursorOp.success "t1" 10 1 "n1")) "b").bind
        SyncState.last_sync_event_id = some 10
    ∧ (storeGet (applyOps [] "b"
        [CursorOp.success "t1" 10 1 "n1", CursorOp.success "t2" 5 1 "n2"])
        "b").bind SyncState.last_sync_event_id = some 5
    ∧ (5 : Int) < 10 := by
  decide

/-- C3 amended. Over any sequence of `recordSuccess`/`recordFailure` calls in
which every `recordSuccess` carries a nonnegative count, `total_events_synced`
never decreases; but `recordSuccess` sets `last_synced_event_id` to the given
id unconditionally (no assertion, so a smaller id silently moves the cursor
backwards), and `recordFailure` never changes `last_synced_event_id`. -/
theorem samay_C3_amended (s : Store) (b : String) :
    (∀ ops : List CursorOp, (∀ op ∈ ops, op.recNonneg) →
        cursorTotal s b ≤ cursorTotal (applyOps s b ops) b)
    ∧ (∀ ts now : String, ∀ lid n : Int,
        (storeGet (applyOp s b (CursorOp.success ts lid n now)) b).bind
          SyncState.last_sync_event_id = some lid)
    ∧ (∀ msg now : String, ∀ n : Int,
        (storeGet (applyOp s b (CursorOp.failure msg n now)) b).bind
          SyncState.last_sync_event_id =
          (storeGet s b).bind SyncState.last_sync_event_id) := by
  refine ⟨fun ops h => cursorTotal_le_applyOps s b ops h, ?_, ?_⟩
  · intro ts now lid n
    simp only [applyOp]
    rw [update_success_get]
    rfl
  · intro msg now n
    simp only [applyOp]
    rw [update_failure_get]
    cases hg : storeGet s b with
    | some st =>
      rw [get_or_create_of_some s b now st hg]
      by_cases hn : 0 < n
      · simp [hn]
      · simp [hn]
    | none =>
      rw [get_or_create_of_none s b now hg]
      by_cases hn : 0 < n
      · simp [hn, create_sync_state]
      · simp [hn, create_sync_state]

/-- Witness for C3 (amended) at a concrete one-operation sequence. -/
theorem samay_C3_witness :
    cursorTotal [] "b" ≤
      cursorTotal (applyOps [] "b" [CursorOp.success "t1" 7 3 "n1"]) "b"
    ∧ (storeGet (applyOp [] "b" (CursorOp.success "t1" 7 3 "n1")) "b").bind
        SyncState.last_sync_event_id = some 7 := by
  constructor
  · exact (samay_C3_amended [] "b").1 [CursorOp.success "t1" 7 3 "n1"]
      (fun op hop => by
        simp only [List.mem_singleton] at hop
        subst hop
        show (0 : Int) ≤ 3
        decide)
  · exact (samay_C3_amended [] "b").2.1 "t1" "n1" 7 3

/-- Store-wide invariant for C5: every stored cursor with status `never` has
an unset event id. -/
def StoreInv (s : Store) : Prop :=
  ∀ k st, storeGet s k = some st →
    st.last_sync_status = "never" → st.last_sync_event_id = none

theorem storeInv_storeSet (s : Store) (b : String) (v : SyncState)
    (hs : StoreInv s)
    (hv : v.last_sync_status = "never" → v.last_sync_event_id = none) :
    StoreInv (storeSet s b v) := by
  intro k st hget
  rcases storeGet_storeSet_cases s b k v st hget with ⟨_, rfl⟩ | h2
  · exact hv
  · exact hs k st h2

theorem storeInv_get_or_create (s : Store) (b now : String)
    (hs : StoreInv s) : StoreInv (get_or_create_sync_state s b now).1 := by
  cases hg : storeGet s b with
  | some st =>
    rw [get_or_create_of_some s b now st hg]
    exact hs
  | none =>
    rw [get_or_create_of_none s b now hg]
    exact storeInv_storeSet s b _ hs (fun _ => rfl)

theorem storeInv_applyOp (s : Store) (b : String) (op : CursorOp)
    (hs : StoreInv s) : StoreInv (applyOp s b op) := by
  cases op with
  | create now =>
    exact storeInv_storeSet s b _ hs (fun _ => rfl)
  | success ts lid n now =>
    simp only [applyOp, update_sync_success]
    exact storeInv_storeSet _ b _ (storeInv_get_or_create s b now hs)
      (fun h => by simp at h)
  | failure msg n now =>
    simp only [applyOp, update_sync_failure]
    by_cases hn : 0 < n
    · rw [if_pos hn]
      exact storeInv_storeSet _ b _ (storeInv_get_or_create s b now hs)
        (fun h => by simp at h)
    · rw [if_neg hn]
      exact storeInv_storeSet _ b _ (storeInv_get_or_create s b now hs)
        (fun h => by simp at h)

theorem storeInv_applyMOps (s : Store) (ops : List (String × CursorOp))
    (hs : StoreInv s) : StoreInv (applyMOps s ops) := by
  induction ops generalizing s with
  | nil => exact hs
  | cons p ops ih =>
    obtain ⟨b, op⟩ := p
    exact ih _ (storeInv_applyOp s b op hs)

/-- C5 counterexample: recording a failure on a never-synced bucket yields a
reachable cursor whose `last_sync_event_id` is unset while its status is
`failed`, not `never` — refuting the claimed iff. -/
theorem samay_C5_counterexample :
    ∃ st, storeGet (applyMOps []
        [("b", CursorOp.failure "boom" 0 "n")]) "b" = some st
      ∧ st.last_sync_event_id = none
      ∧ st.last_sync_status ≠ "never" := by
  refine ⟨⟨"b", none, none, 0, "failed", some "boom", "n", "n"⟩,
    by decide, by decide, by decide⟩

/-- C5 amended. For every cursor reachable from the empty store by any
sequence of cursor-store operations, `status = never` implies
`last_synced_event_id` is unset; the converse direction is refuted by the
counterexample. -/
theorem samay_C5_never_implies_unset (ops : List (String × CursorOp))
    (k : String) (st : SyncState)
    (h : storeGet (applyMOps [] ops) k = some st)
    (hnever : st.last_sync_status = "never") :
    st.last_sync_event_id = none :=
  storeInv_applyMOps [] ops
    (fun _ _ hg => by simp [storeGet] at hg) k st h hnever

/-- Witness for C5 (amended) at a concrete reachable cursor. -/
theorem samay_C5_witness :
    (create_sync_state "b" "n").last_sync_event_id = none := by
  exact samay_C5_never_implies_unset [("b", CursorOp.create "n")] "b"
    (create_sync_state "b" "n") (by decide) (by decide)

/-! Embedding of `sync/sync_manager.py`: authentication gate, per-bucket sync
and the orchestration pass.  The collaborators are pure inputs: `events b` is
what `db_module.get_events(bucket_id=b)` returns, and `send b` is the
`(success, message)` pair that `APIClient.send_events` returns for bucket
`b`'s batch. -/

/-- State read by `SyncManager._ensure_authenticated`:
`oauth_manager.is_authenticated()`, whether `token_storage.load_tokens()`
yields a dict containing `access_token`, and whether `self.api_client` is
already set. -/
structure AuthState where
  isAuthenticated : Bool
  hasAccessToken : Bool
  apiClientSet : Bool
  deriving Repr, DecidableEq

/-- Embeds `SyncManager._ensure_authenticated`: returns the boolean result
and the possibly-updated state (the api client is created exactly on the
`True` path). -/
def ensureAuthenticated (a : AuthState) : Bool × AuthState :=
  if a.isAuthenticated = false then
    (false, a)
  else if a.apiClientSet = false then
    if a.hasAccessToken then (true, { a with apiClientSet := true })
    else (false, a)
  else
    (false, a)

/-- Embeds `SyncManager._sync_bucket` for bucket `b`.  `Except.error m`
stands for the exception raised out of `_sync_bucket` (caught per bucket in
`sync_all_buckets`); the Python code raises a `KeyError` (whose string form
is `'id'`) while building `events_to_send` if an unsynced event lacks an
`id` key, and raises `Exception("Failed to send events: ...")` after a
failed transmission. -/
def syncBucket (s : Store) (b : String) (all_events : List Event)
    (send : Bool × String) (now : String) : Store × Except String Int :=
  let p := get_events_since_last_sync s b all_events now
  if p.2.isEmpty then
    (p.1, Except.ok 0)
  else if p.2.any (fun e => e.id.isNone) then
    (p.1, Except.error "'id'")
  else if send.1 then
    (update_sync_success p.1 b p.2.getLast!.timestamp (eventId p.2.getLast!)
      (p.2.length : Int) now,
     Except.ok (p.2.length : Int))
  else
    (update_sync_failure p.1 b send.2 0 now,
     Except.error ("Failed to send events: " ++ send.2))

/-- Accumulator of one orchestration pass (store plus the tallies that
`sync_all_buckets` keeps while looping over buckets). -/
structure PassAcc where
  store : Store
  events_synced : Int
  buckets_synced : Int
  errors : List String
  deriving DecidableEq

/-- Embeds the bucket loop of `SyncManager.sync_all_buckets`: each bucket is
synced inside `try/except`; an exception is appended to the error list as
`"Failed to sync bucket {id}: {e}"` and the loop continues. -/
def syncLoop (events : String → List Event) (send : String → Bool × String)
    (now : String) : Store → List String → PassAcc
  | s, [] => ⟨s, 0, 0, []⟩
  | s, b :: rest =>
    let r := syncBucket s b (events b) (send b) now
    let acc := syncLoop events send now r.1 rest
    match r.2 with
    | Except.ok n =>
      { acc with events_synced := n + acc.events_synced,
                 buckets_synced := 1 + acc.buckets_synced }
    | Except.error m =>
      { acc with errors :=
          ("Failed to sync bucket " ++ b ++ ": " ++ m) :: acc.errors }

/-- Embeds the `SyncResult` dataclass (the wall-clock `timestamp` and
`duration_seconds` fields are not modelled). -/
structure SyncResultM where
  success : Bool
  events_synced : Int
  buckets_synced : Int
  errors : List String
  deriving Repr, DecidableEq

/-- Embeds `SyncManager.sync_all_buckets`: authentication gate, then the
bucket loop, then aggregation (`success = (errors is empty)`). -/
def sync_all_buckets (a : AuthState) (s : Store) (buckets : List String)
    (events : String → List Event) (send : String → Bool × String)
    (now : String) : AuthState × Store × SyncResultM :=
  let g := ensureAuthenticated a
  if g.1 = false then
    (g.2, s, ⟨false, 0, 0, ["Authentication required"]⟩)
  else
    let acc := syncLoop events send now s buckets
    (g.2, acc.store,
     ⟨acc.errors.isEmpty, acc.events_synced, acc.buckets_synced, acc.errors⟩)

/-- C6. Whenever no valid bearer token is available (either the OAuth manager
reports unauthenticated, or the stored tokens contain no access token),
`sync_all_buckets` aborts the whole pass: it returns `success = false`,
`errors = ["Authentication required"]`, zero events and zero buckets, leaves
every cursor untouched (the store is returned unchanged) and does not touch
the auth state. -/
theorem samay_C6_auth_abort (a : AuthState) (s : Store)
    (buckets : List String) (events : String → List Event)
    (send : String → Bool × String) (now : String)
    (h : a.isAuthenticated = false ∨ a.hasAccessToken = false) :
    sync_all_buckets a s buckets events send now =
      (a, s, ⟨false, 0, 0, ["Authentication required"]⟩) := by
  have hg : ensureAuthenticated a = (false, a) := by
    unfold ensureAuthenticated
    rcases h with h1 | h2
    · rw [if_pos h1]
    · by_cases hi : a.isAuthenticated = false
      · rw [if_pos hi]
      · rw [if_neg hi]
        by_cases hc : a.apiClientSet = false
        · rw [if_pos hc, if_neg (by simp [h2])]
        · rw [if_neg hc]
  unfold sync_all_buckets
  rw [hg]
  rfl

/-- Witness for C6 at a concrete unauthenticated state. -/
theorem samay_C6_witness :
    sync_all_buckets ⟨false, true, false⟩
        [("b", ⟨"b", none, some 2, 2, "success", none, "t0", "t1"⟩)]
        ["b"] (fun _ => [⟨some 3, "e3", "c"⟩]) (fun _ => (true, "ok")) "t2" =
      (⟨false, true, false⟩,
       [("b", ⟨"b", none, some 2, 2, "success", none, "t0", "t1"⟩)],
       ⟨false, 0, 0, ["Authentication required"]⟩) := by
  exact samay_C6_auth_abort ⟨false, true, false⟩
    [("b", ⟨"b", none, some 2, 2, "success", none, "t0", "t1"⟩)]
    ["b"] (fun _ => [⟨some 3, "e3", "c"⟩]) (fun _ => (true, "ok")) "t2"
    (Or.inl rfl)

/-! Claim C7: per-bucket failure isolation in the orchestration pass. -/

theorem update_success_frame (s : Store) (b k ts now : String) (lid n : Int)
    (h : k ≠ b) :
    storeGet (update_sync_success s b ts lid n now) k = storeGet s k := by
  simp only [update_sync_success]
  rw [storeGet_storeSet_other _ _ _ _ h]
  exact get_or_create_frame s b k now h

theorem update_failure_frame (s : Store) (b k msg now : String) (n : Int)
    (h : k ≠ b) :
    storeGet (update_sync_failure s b msg n now) k = storeGet s k := by
  simp only [update_sync_failure]
  rw [storeGet_storeSet_other _ _ _ _ h]
  exact get_or_create_frame s b k now h

theorem selector_store (s : Store) (b now : String) (l : List Event) :
    (get_events_since_last_sync s b l now).1 =
      (get_or_create_sync_state s b now).1 := by
  simp only [get_events_since_last_sync]
  cases (get_or_create_sync_state s b now).2.last_sync_event_id <;> rfl

theorem selector_frame (s : Store) (b k now : String) (l : List Event)
    (h : k ≠ b) :
    storeGet (get_events_since_last_sync s b l now).1 k = storeGet s k := by
  rw [selector_store]
  exact get_or_create_frame s b k now h

theorem selector_store_get_self (s : Store) (b now : String) (l : List Event) :
    storeGet (get_events_since_last_sync s b l now).1 b =
      some (get_or_create_sync_state s b now).2 := by
  rw [selector_store]
  exact get_or_create_get s b now

theorem get_or_create_val_congr (s s' : Store) (b now : String)
    (h : storeGet s b = storeGet s' b) :
    (get_or_create_sync_state s b now).2 =
      (get_or_create_sync_state s' b now).2 := by
  unfold get_or_create_sync_state
  rw [h]
  cases storeGet s' b <;> rfl

theorem selector_val_congr (s s' : Store) (b now : String) (l : List Event)
    (h : storeGet s b = storeGet s' b) :
    (get_events_since_last_sync s b l now).2 =
      (get_events_since_last_sync s' b l now).2 := by
  simp only [get_events_since_last_sync]
  rw [get_or_create_val_congr s s' b now h]
  cases (get_or_create_sync_state s' b now).2.last_sync_event_id <;> rfl

theorem update_success_get_of_some (t : Store) (b ts now : String)
    (lid n : Int) (v : SyncState) (hv : storeGet t b = some v) :
    storeGet (update_sync_success t b ts lid n now) b =
      some { v with
        last_sync_timestamp := some ts
        last_sync_event_id := some lid
        total_events_synced := v.total_events_synced + n
        last_sync_status := "success"
        last_sync_error := none
        updated_at := now } := by
  rw [update_success_get, get_or_create_of_some t b now v hv]

theorem syncBucket_frame (s : Store) (b k : String) (ev : List Event)
    (snd : Bool × String) (now : String) (h : k ≠ b) :
    storeGet (syncBucket s b ev snd now).1 k = storeGet s k := by
  simp only [syncBucket]
  by_cases he : (get_events_since_last_sync s b ev now).2.isEmpty
  · rw [if_pos he]
    exact selector_frame s b k now ev h
  · rw [if_neg he]
    by_cases ha :
        ((get_events_since_last_sync s b ev now).2.any
          (fun e => e.id.isNone)) = true
    · rw [if_pos ha]
      exact selector_frame s b k now ev h
    · rw [if_neg ha]
      by_cases hsnd : snd.1 = true
      · rw [if_pos hsnd]
        rw [update_success_frame _ b k _ _ _ _ h]
        exact selector_frame s b k now ev h
      · rw [if_neg hsnd]
        rw [update_failure_frame _ b k _ _ _ h]
        exact selector_frame s b k now ev h

theorem syncBucket_congr (s s' : Store) (b : String) (ev : List Event)
    (snd : Bool × String) (now : String)
    (h : storeGet s b = storeGet s' b) :
    storeGet (syncBucket s b ev snd now).1 b =
      storeGet (syncBucket s' b ev snd now).1 b
    ∧ (syncBucket s b ev snd now).2 = (syncBucket s' b ev snd now).2 := by
  have hval := get_or_create_val_congr s s' b now h
  have hsel := selector_val_congr s s' b now ev h
  simp only [syncBucket]
  rw [hsel]
  by_cases he : (get_events_since_last_sync s' b ev now).2.isEmpty
  · rw [if_pos he, if_pos he]
    refine ⟨?_, rfl⟩
    rw [selector_store_get_self s b now ev,
      selector_store_get_self s' b now ev, hval]
  · rw [if_neg he, if_neg he]
    by_cases ha :
        ((get_events_since_last_sync s' b ev now).2.any
          (fun e => e.id.isNone)) = true
    · rw [if_pos ha, if_pos ha]
      refine ⟨?_, rfl⟩
      rw [selector_store_get_self s b now ev,
        selector_store_get_self s' b now ev, hval]
    · rw [if_neg ha, if_neg ha]
      by_cases hsnd : snd.1 = true
      · rw [if_pos hsnd, if_pos hsnd]
        refine ⟨?_, rfl⟩
        rw [update_success_get_of_some _ b _ now _ _ _
            (selector_store_get_self s b now ev),
          update_success_get_of_some _ b _ now _ _ _
            (selector_store_get_self s' b now ev),
          hval]
      · rw [if_neg hsnd, if_neg hsnd]
        refine ⟨?_, rfl⟩
        rw [update_failure_zero_get _ b snd.2 now _
            (selector_store_get_self s b now ev),
          update_failure_zero_get _ b snd.2 now _
            (selector_store_get_self s' b now ev),
          hval]

theorem syncLoop_store_cons (events : String → List Event)
    (send : String → Bool × String) (now : String) (s : Store) (b : String)
    (rest : List String) :
    (syncLoop events send now s (b :: rest)).store =
      (syncLoop events send now
        (syncBucket s b (events b) (send b) now).1 rest).store := by
  simp only [syncLoop]
  cases (syncBucket s b (events b) (send b) now).2 <;> rfl

theorem syncLoop_errors_cons (events : String → List Event)
    (send : String → Bool × String) (now : String) (s : Store) (b : String)
    (rest : List String) :
    (syncLoop events send now s (b :: rest)).errors =
      (match (syncBucket s b (events b) (send b) now).2 with
       | Except.ok _ =>
         (syncLoop events send now
           (syncBucket s b (events b) (send b) now).1 rest).errors
       | Except.error m =>
         ("Failed to sync bucket " ++ b ++ ": " ++ m) ::
           (syncLoop events send now
             (syncBucket s b (events b) (send b) now).1 rest).errors) := by
  simp only [syncLoop]
  cases (syncBucket s b (events b) (send b) now).2 <;> rfl

theorem syncLoop_frame (events : String → List Event)
    (send : String → Bool × String) (now : String) (buckets : List String)
    (s : Store) (k : String) (h : k ∉ buckets) :
    storeGet (syncLoop events send now s buckets).store k = storeGet s k := by
  revert h
  induction buckets generalizing s with
  | nil =>
    intro _
    rfl
  | cons b rest ih =>
    intro h
    rw [syncLoop_store_cons]
    rw [ih _ (fun hr => h (List.mem_cons_of_mem b hr))]
    exact syncBucket_frame s b k (events b) (send b) now
      (fun e => h (by rw [e]; exact List.mem_cons_self b rest))

theorem syncLoop_get (events : String → List Event)
    (send : String → Bool × String) (now : String) (buckets : List String)
    (s : Store) (k : String) (hnd : buckets.Nodup) (hk : k ∈ buckets) :
    storeGet (syncLoop events send now s buckets).store k =
      storeGet (syncBucket s k (events k) (send k) now).1 k := by
  revert hnd hk
  induction buckets generalizing s with
  | nil =>
    intro _ hk
    cases hk
  | cons b rest ih =>
    intro hnd hk
    rw [syncLoop_store_cons]
    by_cases hkb : k = b
    · subst hkb
      exact syncLoop_frame events send now rest _ k (List.nodup_cons.mp hnd).1
    · have hkr : k ∈ rest := by
        rcases List.mem_cons.mp hk with e | hr
        · exact absurd e hkb
        · exact hr
      rw [ih _ hnd.of_cons hkr]
      exact (syncBucket_congr _ s k (events k) (send k) now
        (syncBucket_frame s b k (events b) (send b) now hkb)).1

/-- Error entry contributed by bucket `k` to the pass error list, as a
function of the pre-pass store. -/
def bucketError (s : Store) (events : String → List Event)
    (send : String → Bool × String) (now k : String) : Option String :=
  match (syncBucket s k (events k) (send k) now).2 with
  | Except.ok _ => none
  | Except.error m => some ("Failed to sync bucket " ++ k ++ ": " ++ m)

theorem syncLoop_errors (events : String → List Event)
    (send : String → Bool × String) (now : String) (buckets : List String)
    (s : Store) (hnd : buckets.Nodup) :
    (syncLoop events send now s buckets).errors =
      buckets.filterMap (bucketError s events send now) := by
  revert hnd
  induction buckets generalizing s with
  | nil =>
    intro _
    rfl
  | cons b rest ih =>
    intro hnd
    rw [syncLoop_errors_cons]
    have hrest := ih (syncBucket s b (events b) (send b) now).1 hnd.of_cons
    have hcongr : rest.filterMap
          (bucketError (syncBucket s b (events b) (send b) now).1
            events send now) =
        rest.filterMap (bucketError s events send now) := by
      apply List.filterMap_congr
      intro k hk
      have hkb : k ≠ b := by
        intro e
        rw [e] at hk
        exact (List.nodup_cons.mp hnd).1 hk
      unfold bucketError
      rw [(syncBucket_congr _ s k (events k) (send k) now
        (syncBucket_frame s b k (events b) (send b) now hkb)).2]
    rw [List.filterMap_cons]
    cases hr2 : (syncBucket s b (events b) (send b) now).2 with
    | ok n =>
      have hb : bucketError s events send now b = none := by
        unfold bucketError
        rw [hr2]
      rw [hb, hrest, hcongr]
    | error m =>
      have hb : bucketError s events send now b =
          some ("Failed to sync bucket " ++ b ++ ": " ++ m) := by
        unfold bucketError
        rw [hr2]
      rw [hb, hrest, hcongr]

/-- C7. With authentication succeeding and distinct bucket ids, if bucket
`b`'s sync raises (e.g. a transmission failure), then: its error message —
naming `b` — is in the pass's error list; every other bucket is still
processed, and its final cursor is exactly what processing it against the
pre-pass store yields (so `b`'s failure alters no other bucket's cursor);
and every entry of the error list names the bucket whose sync raised it, so
`b`'s error is not attributed to any other bucket.  The per-bucket
`try/except` of `sync_all_buckets` is embedded by `syncLoop` returning a
total result, so no exception escapes the orchestrator. -/
theorem samay_C7_isolation (a : AuthState) (s : Store)
    (buckets : List String) (events : String → List Event)
    (send : String → Bool × String) (now b m : String)
    (hauth : (ensureAuthenticated a).1 = true)
    (hnd : buckets.Nodup) (hb : b ∈ buckets)
    (hfail : (syncBucket s b (events b) (send b) now).2 = Except.error m) :
    ("Failed to sync bucket " ++ b ++ ": " ++ m) ∈
        (sync_all_buckets a s buckets events send now).2.2.errors
    ∧ (∀ k ∈ buckets, k ≠ b →
        storeGet (sync_all_buckets a s buckets events send now).2.1 k =
          storeGet (syncBucket s k (events k) (send k) now).1 k)
    ∧ (∀ e ∈ (sync_all_buckets a s buckets events send now).2.2.errors,
        ∃ k, k ∈ buckets ∧ ∃ m2,
          (syncBucket s k (events k) (send k) now).2 = Except.error m2 ∧
          e = "Failed to sync bucket " ++ k ++ ": " ++ m2) := by
  have hres : (sync_all_buckets a s buckets events send now).2 =
      ((syncLoop events send now s buckets).store,
       ⟨(syncLoop events send now s buckets).errors.isEmpty,
        (syncLoop events send now s buckets).events_synced,
        (syncLoop events send now s buckets).buckets_synced,
        (syncLoop events send now s buckets).errors⟩) := by
    unfold sync_all_buckets
    rw [if_neg (by simp [hauth])]
  rw [hres]
  refine ⟨?_, ?_, ?_⟩
  · rw [syncLoop_errors events send now buckets s hnd]
    apply List.mem_filterMap.mpr
    refine ⟨b, hb, ?_⟩
    unfold bucketError
    rw [hfail]
  · intro k hk hkb
    exact syncLoop_get events send now buckets s k hnd hk
  · intro e he
    rw [syncLoop_errors events send now buckets s hnd] at he
    rcases List.mem_filterMap.mp he with ⟨k, hk, hke⟩
    refine ⟨k, hk, ?_⟩
    unfold bucketError at hke
    cases hr2 : (syncBucket s k (events k) (send k) now).2 with
    | ok n =>
      rw [hr2] at hke
      cases hke
    | error m2 =>
      rw [hr2] at hke
      refine ⟨m2, rfl, ?_⟩
      cases hke
      rfl

/-- Witness for C7: two buckets, bucket A's transmission fails, bucket B's
cursor ends up exactly as if A were absent. -/
theorem samay_C7_witness :
    ("Failed to sync bucket " ++ "A" ++ ": " ++
        "Failed to send events: boom") ∈
      (sync_all_buckets ⟨true, true, false⟩ [] ["A", "B"]
        (fun b => if b = "A" then [⟨some 1, "e1", "x"⟩]
                  else [⟨some 2, "e2", "y"⟩])
        (fun b => if b = "A" then (false, "boom") else (true, "ok"))
        "t").2.2.errors
    ∧ storeGet (sync_all_buckets ⟨true, true, false⟩ [] ["A", "B"]
        (fun b => if b = "A" then [⟨some 1, "e1", "x"⟩]
                  else [⟨some 2, "e2", "y"⟩])
        (fun b => if b = "A" then (false, "boom") else (true, "ok"))
        "t").2.1 "B" =
      storeGet (syncBucket [] "B" [⟨some 2, "e2", "y"⟩] (true, "ok") "t").1
        "B" := by
  have h := samay_C7_isolation ⟨true, true, false⟩ [] ["A", "B"]
    (fun b => if b = "A" then [⟨some 1, "e1", "x"⟩]
              else [⟨some 2, "e2", "y"⟩])
    (fun b => if b = "A" then (false, "boom") else (true, "ok"))
    "t" "A" "Failed to send events: boom"
    rfl (by decide) (by decide) rfl
  exact ⟨h.1, h.2.1 "B" (by decide) (by decide)⟩

/-! Claim C8: the selector's effect on the store. -/

/-- C8 counterexample: running the selector for a bucket with no cursor does
have a side effect — it creates and persists a `never`-status cursor, so
cursor absence no longer means "first sync pending" afterwards. -/
theorem samay_C8_counterexample :
    storeGet ([] : Store) "b" = none
    ∧ (get_events_since_last_sync ([] : Store) "b" [] "t").1 ≠ ([] : Store)
    ∧ storeGet (get_events_since_last_sync ([] : Store) "b" [] "t").1 "b" =
        some (create_sync_state "b" "t") := by
  refine ⟨rfl, by decide, by decide⟩

/-- C8 amended. The selector's returned list is a pure function of the
bucket's cursor and the input (proved as C1), and it never modifies an
existing cursor: when the bucket already has a cursor the store is returned
unchanged.  But for a bucket without a cursor it lazily creates and persists
a fresh `never`-status cursor with unset event id (via
`get_or_create_sync_state`), so after a selection a cursor always exists;
"first sync pending" is signalled by `status = never`, not by absence. -/
theorem samay_C8_selector_store_effect (s : Store) (b now : String)
    (l : List Event) :
    (get_events_since_last_sync s b l now).1 =
      (if (storeGet s b).isSome then s
       else storeSet s b (create_sync_state b now))
    ∧ (storeGet (get_events_since_last_sync s b l now).1 b).isSome = true
    ∧ (create_sync_state b now).last_sync_status = "never"
    ∧ (create_sync_state b now).last_sync_event_id = none := by
  refine ⟨?_, ?_, rfl, rfl⟩
  · rw [selector_store]
    unfold get_or_create_sync_state
    cases hg : storeGet s b with
    | some st => simp [hg]
    | none => simp [hg]
  · rw [selector_store_get_self]
    rfl

/-! Claim C9: crash-safety of `_save_sync_states`. -/

/-- File-system state relevant to the cursor file: the contents (if any) of
the primary state file and of the `.json.backup` file. -/
structure FileSys where
  primary : Option String
  backup : Option String
  deriving Repr, DecidableEq

/-- Embeds the file operations of `_save_sync_states` as the sequence of
file-system states the save passes through: (1) rename the existing primary
file to `.json.backup` (overwriting any previous backup), (2) `open(..., 'w')`
creates/truncates the primary file, (3) `json.dump` completes the write. -/
def saveSteps (fs : FileSys) (newContent : String) : List FileSys :=
  let fs1 := match fs.primary with
    | some c => ({ primary := none, backup := some c } : FileSys)
    | none => fs
  let fs2 : FileSys := { fs1 with primary := some "" }
  let fs3 : FileSys := { fs2 with primary := some newContent }
  [fs1, fs2, fs3]

/-- Embeds `_load_sync_states`: only the primary path is read; a missing (or
unparseable, e.g. truncated) file yields the empty state, modelled as `""`.
The backup file is never read back. -/
def loadState (fs : FileSys) : String :=
  match fs.primary with
  | none => ""
  | some c => c

/-- C9. The save is not crash-safe as claimed: starting from a complete
primary state `"A"` and writing `"B"`, there is an intermediate step (after
the rename, before the write completes) at which the loader reads neither
the old nor the new complete state but the empty state.  The backup half of
the claim does hold: every step retains the prior state `"A"` in
`.json.backup`, and the completed save leaves `"B"` readable. -/
theorem samay_C9_not_crash_safe :
    (∃ fsMid ∈ saveSteps ⟨some "A", none⟩ "B",
        loadState fsMid ≠ "A" ∧ loadState fsMid ≠ "B")
    ∧ (∀ fs' ∈ saveSteps ⟨some "A", none⟩ "B", fs'.backup = some "A")
    ∧ loadState ⟨some "B", some "A"⟩ = "B"
    ∧ (saveSteps ⟨some "A", none⟩ "B").getLast? =
        some ⟨some "B", some "A"⟩ := by
  refine ⟨⟨⟨none, some "A"⟩, by decide, by decide, by decide⟩,
    by decide, rfl, by decide⟩

/-! Claim C10: events lacking an `id` key. -/

/-- C10. In the selector, an event without an `id` key is treated as having
id 0 (`event.get('id', 0)`): when the bucket's cursor id is some `n ≥ 0` the
event is never selected (silently dropped), while on first sync (cursor id
absent) the same event is returned. -/
theorem samay_C10_missing_id (s : Store) (b now : String) (l : List Event)
    (e : Event) (he : e ∈ l) (hid : e.id = none) :
    (∀ n : Int, (storeGet s b).bind SyncState.last_sync_event_id = some n →
        0 ≤ n → e ∉ (get_events_since_last_sync s b l now).2)
    ∧ ((storeGet s b).bind SyncState.last_sync_event_id = none →
        e ∈ (get_events_since_last_sync s b l now).2) := by
  constructor
  · intro n hsome hn hmem
    cases hg : storeGet s b with
    | none =>
      rw [hg] at hsome
      simp at hsome
    | some st =>
      rw [hg] at hsome
      simp only [Option.some_bind] at hsome
      rw [selector_of_some s b now l st n hg hsome] at hmem
      rcases List.mem_filter.mp hmem with ⟨_, hdec⟩
      have hlt : n < eventId e := of_decide_eq_true hdec
      simp only [eventId, hid, Option.getD_none] at hlt
      omega
  · intro hnone
    rw [selector_of_none s b now l hnone]
    exact he

/-- Witness for C10 at a concrete id-less event. -/
theorem samay_C10_witness :
    (⟨none, "t", "d"⟩ : Event) ∉ (get_events_since_last_sync
        [("b", ⟨"b", none, some 0, 0, "success", none, "t0", "t1"⟩)] "b"
        [⟨none, "t", "d"⟩] "t2").2
    ∧ (⟨none, "t", "d"⟩ : Event) ∈ (get_events_since_last_sync ([] : Store)
        "b" [⟨none, "t", "d"⟩] "t2").2 := by
  constructor
  · exact (samay_C10_missing_id
      [("b", ⟨"b", none, some 0, 0, "success", none, "t0", "t1"⟩)] "b" "t2"
      [⟨none, "t", "d"⟩] ⟨none, "t", "d"⟩ (by decide) rfl).1 0
      (by decide) (by decide)
  · exact (samay_C10_missing_id ([] : Store) "b" "t2"
      [⟨none, "t", "d"⟩] ⟨none, "t", "d"⟩ (by decide) rfl).2 (by decide)
